import Mathlib

/-!
Verification development for the deepchecks drift-and-segment-analysis core.

The Lean definitions below are shallow embeddings of the Python sources:

* `deepchecks/vision/checks/distribution/train_test_prediction_drift.py`
  (`TrainTestPredictionDrift`): property accumulation over train/test
  batches, class-id translation, drift computation and ranking.
* `deepchecks/tabular/checks/performance/segment_performance.py`
  (`SegmentPerformance`): constructor validation and the feature-selection
  slice of `run_logic`.
* `deepchecks/vision/checks/performance/model_error_analysis.py`
  (`ModelErrorAnalysis`): per-run accumulator lifecycle and the
  `compute` error handling.
* `deepchecks/tabular/checks/integrity/mixed_data_types.py`
  (`MixedDataTypes`): the mixed string/number ratio computation.

Machine floats of the Python code are embedded as rationals, Python lists as
`List`, Python dicts keyed by strings as functions `String → _` or as
association lists, and raised exceptions as `Except` values.  Functions of
the repository that are outside the sources in scope (utility modules) are
modelled from the specification and marked as such in their doc comments.
-/

namespace Deepchecks

/-- Dataset kind tag (`deepchecks.core.DatasetKind`): the two populations a
train-test check accumulates separately. -/
inductive DatasetKind where
  | TRAIN
  | TEST
deriving DecidableEq

/-- A dynamically typed scalar value of a property buffer: prediction
properties produce numbers (class ids, areas, counts); class-id translation
turns them into class-name strings. -/
inductive PValue where
  | num (q : ℚ)
  | str (s : String)
deriving DecidableEq

/-- The declared output type of a property
(`'continuous'`/`'discrete'`/`'class_id'`). -/
inductive OutputType where
  | continuous
  | discrete
  | class_id
deriving DecidableEq

/-- Column type handed to the drift calculator. -/
inductive ColumnType where
  | categorical
  | numerical
deriving DecidableEq

/-- The drift scoring method recorded in a drift result. -/
inductive DriftMethod where
  | PSI
  | EarthMoversDistance
deriving DecidableEq

/-- Modelled from the spec: `properties_flatten`
(`deepchecks.vision.utils.label_prediction_properties`, outside the sources
in scope).  Per spec section 4.3, all values across all samples in the batch
are concatenated into one sequence, losing the per-sample grouping. -/
def properties_flatten (xs : List (List PValue)) : List PValue :=
  xs.flatten

/-- A prediction property: name, extractor method and declared output type.
`P` is the (opaque) type of a batch's predictions; the method returns, per
sample, the list of extracted scalar values. -/
structure PredictionProperty (P : Type) where
  name : String
  method : P → List (List PValue)
  output_type : OutputType

/-- The slice of a vision `Batch` used by `TrainTestPredictionDrift.update`. -/
structure VisionBatch (P : Type) where
  predictions : P

/-- The accumulator state of a `TrainTestPredictionDrift` run: the two
per-property buffers `_train_prediction_properties` and
`_test_prediction_properties` (Python `defaultdict(list)`, embedded as total
functions from property name to buffer). -/
structure DriftState where
  train : String → List PValue
  test : String → List PValue

/-- `initialize_run`: both buffers start empty (`defaultdict(list)`). -/
def DriftState.initial : DriftState :=
  { train := fun _ => [], test := fun _ => [] }

/-- One step of the `update` loop body: append the flattened extracted
values of one property to the buffer under that property's name. -/
def updatePropertyBuf (P : Type) (buf : String → List PValue)
    (p : PredictionProperty P) (preds : P) : String → List PValue :=
  fun n => if n = p.name then buf n ++ properties_flatten (p.method preds) else buf n

/-- `TrainTestPredictionDrift.update`: select the buffer by dataset kind and
run the per-property append loop over the declared properties. -/
def TrainTestPredictionDrift.update (P : Type) (props : List (PredictionProperty P))
    (s : DriftState) (kind : DatasetKind) (batch : VisionBatch P) : DriftState :=
  match kind with
  | DatasetKind.TRAIN =>
      { s with train := props.foldl (fun b p => updatePropertyBuf P b p batch.predictions) s.train }
  | DatasetKind.TEST =>
      { s with test := props.foldl (fun b p => updatePropertyBuf P b p batch.predictions) s.test }

/-- A whole accumulation phase: `update` applied to a sequence of
(dataset kind, batch) pairs in arrival order. -/
def TrainTestPredictionDrift.runUpdates (P : Type) (props : List (PredictionProperty P))
    (s : DriftState) (batches : List (DatasetKind × VisionBatch P)) : DriftState :=
  batches.foldl (fun st kb => TrainTestPredictionDrift.update P props st kb.1 kb.2) s

/-- Modelled from the spec: `get_column_type`
(`deepchecks.vision.utils.label_prediction_properties`, outside the sources
in scope).  Per spec, class_id and discrete properties are treated as
categorical columns and continuous properties as numerical columns. -/
def get_column_type : OutputType → ColumnType
  | OutputType.continuous => ColumnType.numerical
  | OutputType.discrete => ColumnType.categorical
  | OutputType.class_id => ColumnType.categorical

/-- Modelled from the spec: `calc_drift_and_plot`
(`deepchecks.utils.distribution.drift`, outside the sources in scope).
Per spec sections 4.2 and 4.4, the method is PSI for categorical columns and
Earth Movers Distance for numerical columns; the numeric score and the
rendering artifact are produced by the scorer and plotter, which this
embedding receives as explicit arguments (`sc`, `pl`). -/
def calc_drift_and_plot (D : Type) (sc : ColumnType → List PValue → List PValue → ℚ)
    (pl : ColumnType → List PValue → List PValue → D)
    (train_column test_column : List PValue) (column_type : ColumnType) :
    ℚ × DriftMethod × D :=
  (sc column_type train_column test_column,
   match column_type with
   | ColumnType.categorical => DriftMethod.PSI
   | ColumnType.numerical => DriftMethod.EarthMoversDistance,
   pl column_type train_column test_column)

/-- One row of `values_dict`/`displays_dict` built by
`TrainTestPredictionDrift.compute` for one property, together with the two
columns that were handed to `calc_drift_and_plot` for it. -/
structure DriftEntry (D : Type) where
  name : String
  train_column : List PValue
  test_column : List PValue
  score : ℚ
  method : DriftMethod
  display : D
deriving DecidableEq

/-- The loop body of `TrainTestPredictionDrift.compute`: walk the declared
properties in order; for a class_id property first overwrite both buffers
under that name with their id→name translation (the source mutates
`self._train_prediction_properties[name]` in place), then call the drift
calculator on the (possibly translated) buffers.  Returns the entries in
declaration order and the final buffer state. -/
def computeLoop (P D : Type) (sc : ColumnType → List PValue → List PValue → ℚ)
    (pl : ColumnType → List PValue → List PValue → D)
    (lookupTr lookupTe : PValue → PValue) :
    List (PredictionProperty P) → DriftState → List (DriftEntry D) × DriftState
  | [], s => ([], s)
  | p :: ps, s =>
      let s1 : DriftState :=
        if p.output_type = OutputType.class_id then
          { train := fun n => if n = p.name then (s.train n).map lookupTr else s.train n,
            test := fun n => if n = p.name then (s.test n).map lookupTe else s.test n }
        else s
      let tr := s1.train p.name
      let te := s1.test p.name
      let r := calc_drift_and_plot D sc pl tr te (get_column_type p.output_type)
      let rest := computeLoop P D sc pl lookupTr lookupTe ps s1
      ({ name := p.name, train_column := tr, test_column := te,
         score := r.1, method := r.2.1, display := r.2.2 } :: rest.1, rest.2)

/-- Look an entry up by property name (`values_dict[name]`). -/
def findEntry (D : Type) (es : List (DriftEntry D)) (n : String) : Option (DriftEntry D) :=
  es.find? (fun e => e.name = n)

/-- The ordering relation of `sorted(..., key=drift score, reverse=True)`:
an entry comes before another when its score is at least as large. -/
def driftGE (D : Type) (a b : DriftEntry D) : Prop :=
  b.score ≤ a.score

instance (D : Type) : DecidableRel (driftGE D) :=
  fun a b => inferInstanceAs (Decidable (b.score ≤ a.score))

/-- `columns_order`: the entries stably sorted descending by drift score.
Python's `sorted` with `reverse=True` is a stable descending sort, embedded
here as insertion sort with the reflexive descending relation (any two
stable sorts of the same list under the same total preorder are equal). -/
def columnsOrder (D : Type) (es : List (DriftEntry D)) : List (DriftEntry D) :=
  List.insertionSort (driftGE D) es

/-- The result of `TrainTestPredictionDrift.compute`: the per-property
entries in declaration order (`values_dict`), the ranked order
(`columns_order`) and the ordered rendering artifacts (the source prepends
one constant headnote string to these). -/
structure DriftComputeResult (D : Type) where
  values : List (DriftEntry D)
  columns_order : List (DriftEntry D)
  displays : List D

/-- `TrainTestPredictionDrift.compute` over a finalized accumulator state. -/
def TrainTestPredictionDrift.compute (P D : Type)
    (sc : ColumnType → List PValue → List PValue → ℚ)
    (pl : ColumnType → List PValue → List PValue → D)
    (lookupTr lookupTe : PValue → PValue)
    (props : List (PredictionProperty P)) (s : DriftState) : DriftComputeResult D :=
  let es := (computeLoop P D sc pl lookupTr lookupTe props s).1
  { values := es,
    columns_order := columnsOrder D es,
    displays := (columnsOrder D es).map (fun e => e.display) }

/-- The entry `TrainTestPredictionDrift.compute` produces for a property
when the buffers under its name still hold the values `s` records: class-id
buffers are translated elementwise, others are passed through, and score,
method and display are the drift-calculator outputs on those columns. -/
def mkDriftEntry (P D : Type) (sc : ColumnType → List PValue → List PValue → ℚ)
    (pl : ColumnType → List PValue → List PValue → D)
    (lookupTr lookupTe : PValue → PValue) (s : DriftState)
    (p : PredictionProperty P) : DriftEntry D :=
  let tr := if p.output_type = OutputType.class_id
    then (s.train p.name).map lookupTr else s.train p.name
  let te := if p.output_type = OutputType.class_id
    then (s.test p.name).map lookupTe else s.test p.name
  { name := p.name, train_column := tr, test_column := te,
    score := sc (get_column_type p.output_type) tr te,
    method := match get_column_type p.output_type with
              | ColumnType.categorical => DriftMethod.PSI
              | ColumnType.numerical => DriftMethod.EarthMoversDistance,
    display := pl (get_column_type p.output_type) tr te }

/-- The error taxonomy of the embedded checks
(`deepchecks.core.errors`): `DeepchecksValueError` is the InvalidParameter
kind, `DatasetValidationError` the dataset-precondition kind. -/
inductive DeepchecksError where
  | valueError (msg : String)
  | datasetValidationError (msg : String)
deriving DecidableEq

/-- Python truthiness of an optional feature name: `None` and the empty
string are falsy, every other string is truthy (`if feature_1 and ...`). -/
def pyTruthy : Option String → Bool
  | none => false
  | some s => !(s == "")

/-- The configuration fields of a `SegmentPerformance` instance that the
constructor and `run_logic` read and write. -/
structure SegmentPerformanceConfig where
  feature_1 : Option String
  feature_2 : Option String
  max_segments : Int
deriving DecidableEq

/-- `SegmentPerformance.__init__`: reject a truthy `feature_1` equal to
`feature_2`, then reject a negative `max_segments` (the source condition is
`not isinstance(max_segments, int) or max_segments < 0`; the `isinstance`
half is carried by the `Int` type of the embedding). -/
def SegmentPerformance.init (feature_1 feature_2 : Option String)
    (max_segments : Int) : Except DeepchecksError SegmentPerformanceConfig :=
  if pyTruthy feature_1 && feature_1 == feature_2 then
    Except.error (DeepchecksError.valueError "feature_1 must be different than feature_2")
  else if max_segments < 0 then
    Except.error (DeepchecksError.valueError "num_segments must be positive integer")
  else
    Except.ok { feature_1 := feature_1, feature_2 := feature_2, max_segments := max_segments }

/-- The slice of a tabular `Context`/`Dataset` read by the feature-selection
part of `SegmentPerformance.run_logic`: the feature column names and the
optional feature-importance series (name, importance pairs). -/
structure TabularContext where
  features : List String
  features_importance : Option (List (String × ℚ))
deriving DecidableEq

/-- Descending order on (name, importance) pairs, as in
`features_importance.sort_values(ascending=False)`. -/
def importanceGE (a b : String × ℚ) : Prop :=
  b.2 ≤ a.2

instance : DecidableRel importanceGE :=
  fun a b => inferInstanceAs (Decidable (b.2 ≤ a.2))

/-- The feature-selection slice of `SegmentPerformance.run_logic` (lines
84-95): validate the feature count, then, when both configured features are
`None`, overwrite the instance fields `feature_1`/`feature_2` with the two
top features (by importance when available, else the first two columns).
Returns the instance state as `run_logic` leaves it. -/
def SegmentPerformance.selectFeatures (s : SegmentPerformanceConfig)
    (ctx : TabularContext) : Except DeepchecksError SegmentPerformanceConfig :=
  if ctx.features.length < 2 then
    Except.error (DeepchecksError.datasetValidationError "Dataset must have at least 2 features")
  else if s.feature_1 = none ∧ s.feature_2 = none then
    match (match ctx.features_importance with
           | none => ctx.features
           | some fi => (List.insertionSort importanceGE fi).map Prod.fst) with
    | f1 :: f2 :: _ =>
        Except.ok { s with feature_1 := some f1, feature_2 := some f2 }
    | _ => Except.error (DeepchecksError.valueError "not enough features to unpack")
  else if s.feature_1 = none ∨ s.feature_2 = none then
    Except.error (DeepchecksError.valueError "Must define both feature_1 and feature_2 or none of them")
  else
    Except.ok s

/-- An image property of `ModelErrorAnalysis`: name and extractor over a
batch's images (`I` is the opaque type of `batch.images`); the method
returns one value per image and is appended with `extend`. -/
structure MEAProperty (I : Type) where
  name : String
  method : I → List ℚ

/-- The slice of a vision `Batch` read by `ModelErrorAnalysis.update`. -/
structure MEABatch (I P L : Type) where
  images : I
  predictions : P
  labels : L

/-- The configuration fields of a `ModelErrorAnalysis` instance, all set in
the constructor and never touched by a run. -/
structure MEAConfig (I : Type) where
  image_properties : List (MEAProperty I)
  max_properties_to_show : Int
  min_property_contribution : ℚ
  min_error_model_score : ℚ
  min_segment_size : ℚ
  n_display_samples : Int
  random_state : Int

/-- The full mutable state of a `ModelErrorAnalysis` instance: its
configuration plus the four accumulator fields owned by a run. -/
structure MEAState (I P L : Type) where
  config : MEAConfig I
  train_properties : String → List ℚ
  test_properties : String → List ℚ
  train_scores : List ℚ
  test_scores : List ℚ

/-- `ModelErrorAnalysis.initialize_run`: the four accumulator fields are
reset to fresh empty containers; the configuration is untouched. -/
def ModelErrorAnalysis.initRun (I P L : Type) (s : MEAState I P L) : MEAState I P L :=
  { s with
    train_properties := fun _ => [],
    test_properties := fun _ => [],
    train_scores := [],
    test_scores := [] }

/-- `ModelErrorAnalysis.update`: extend each property buffer of the
selected population with the property values of the batch's images, and
extend the selected score list with the per-sample scores.  The per-sample
scoring function (cross entropy or mean IoU, both outside the sources in
scope) is received as the argument `scoringFunc`. -/
def ModelErrorAnalysis.update (I P L : Type) (scoringFunc : P → L → List ℚ)
    (s : MEAState I P L) (kind : DatasetKind) (batch : MEABatch I P L) : MEAState I P L :=
  let bufUpd : (String → List ℚ) → String → List ℚ := fun buf =>
    s.config.image_properties.foldl
      (fun b p => fun n => if n = p.name then b n ++ p.method batch.images else b n) buf
  match kind with
  | DatasetKind.TRAIN =>
      { s with
        train_properties := bufUpd s.train_properties,
        train_scores := s.train_scores ++ scoringFunc batch.predictions batch.labels }
  | DatasetKind.TEST =>
      { s with
        test_properties := bufUpd s.test_properties,
        test_scores := s.test_scores ++ scoringFunc batch.predictions batch.labels }

/-- A whole accumulation phase of a `ModelErrorAnalysis` run:
`initialize_run` and then `update` on each delivered batch. -/
def ModelErrorAnalysis.runAccumulate (I P L : Type) (scoringFunc : P → L → List ℚ)
    (s : MEAState I P L) (batches : List (DatasetKind × MEABatch I P L)) : MEAState I P L :=
  batches.foldl (fun st kb => ModelErrorAnalysis.update I P L scoringFunc st kb.1 kb.2)
    (ModelErrorAnalysis.initRun I P L s)

/-- The exception signalled by the auxiliary regression step
(`DeepchecksProcessError`). -/
structure DeepchecksProcessError where
  message : String
deriving DecidableEq

/-- The outcome of a check's compute phase: a `CheckResult` value with an
optional display payload, or a non-fatal `CheckFailure` record carrying the
check name and the failure reason. -/
inductive CheckOutcome (V D : Type) where
  | result (value : V) (display : Option (List D))
  | failure (check_name : String) (reason : String)

/-- `ModelErrorAnalysis.compute` (lines 144-177): the call to
`model_error_contribution` (outside the sources in scope) is received as its
outcome `fit`; a signalled `DeepchecksProcessError` is caught and converted
into a `CheckFailure` of this check, otherwise
`error_model_display_dataframe` (received as `displayFn`) produces the
display list and value, and an empty display list becomes `None` (Python
`display if display else None`) while a non-empty one gets the headnote
(received as `headnote`) prepended. -/
def ModelErrorAnalysis.compute (F V D : Type)
    (fit : Except DeepchecksProcessError F)
    (displayFn : F → List D × V) (headnote : D) : CheckOutcome V D :=
  match fit with
  | Except.error e => CheckOutcome.failure "Model Error Analysis" e.message
  | Except.ok r =>
      let dv := displayFn r
      CheckOutcome.result dv.2
        (match dv.1 with
         | [] => none
         | ds => some (headnote :: ds))

/-- The data of one column seen by `MixedDataTypes._get_data_mix` after
`dropna()`: whether `is_string_column` holds of it (that utility is outside
the sources in scope and is carried as a flag), and, per non-missing entry,
whether `float(entry)` succeeds (the `is_float` test of the source). -/
structure MixedColumn where
  isStringColumn : Bool
  entries : List Bool
deriving DecidableEq

/-- The number of entries of the column that parse as floats
(`nums = sum(column_data.apply(is_float))`). -/
def MixedDataTypes.numsOf (col : MixedColumn) : ℕ :=
  (col.entries.filter (fun b => b)).length

/-- The number of non-missing rows (`total_rows = column_data.count()`). -/
def MixedDataTypes.totalOf (col : MixedColumn) : ℕ :=
  col.entries.length

/-- `MixedDataTypes._check_mixed_percentage`: empty result when every or no
entry parses as a number, else the dict with keys strings and numbers
(embedded as an association list in insertion order). -/
def MixedDataTypes.check_mixed_percentage (col : MixedColumn) : List (String × ℚ) :=
  let total_rows := MixedDataTypes.totalOf col
  let nums := MixedDataTypes.numsOf col
  if nums = total_rows ∨ nums = 0 then []
  else
    let nums_pct : ℚ := (nums : ℚ) / (total_rows : ℚ)
    let strs_pct : ℚ := |(nums : ℚ) - (total_rows : ℚ)| / (total_rows : ℚ)
    [("strings", strs_pct), ("numbers", nums_pct)]

/-- `MixedDataTypes._get_data_mix`: only string columns are analyzed. -/
def MixedDataTypes.get_data_mix (col : MixedColumn) : List (String × ℚ) :=
  if col.isStringColumn then MixedDataTypes.check_mixed_percentage col else []

/-- Python truthiness of an optional integer parameter: `None` and `0` are
falsy. -/
def pyIntTruthy : Option Int → Bool
  | none => false
  | some n => !(n == 0)

/-- Python `x or y` on optional integers: `x` when truthy, else `y`. -/
def pyOrInt (a b : Option Int) : Option Int :=
  if pyIntTruthy a then a else b

/-- The category-count configuration of a `TrainTestPredictionDrift`
instance. -/
structure PredDriftConfig where
  max_num_categories_for_drift : Option Int
  max_num_categories_for_display : Option Int
  show_categories_by : String
deriving DecidableEq

/-- The deprecated-parameter handling of `TrainTestPredictionDrift.__init__`
(lines 93-103): when `max_num_categories` is not `None`, a deprecation
warning is emitted (the `Bool` of the result) and each new parameter is
replaced by `new or max_num_categories`; the fields are then stored. -/
def TrainTestPredictionDrift.initConfig
    (max_num_categories_for_drift max_num_categories_for_display : Option Int)
    (show_categories_by : String) (max_num_categories : Option Int) :
    PredDriftConfig × Bool :=
  if max_num_categories ≠ none then
    ({ max_num_categories_for_drift := pyOrInt max_num_categories_for_drift max_num_categories,
       max_num_categories_for_display := pyOrInt max_num_categories_for_display max_num_categories,
       show_categories_by := show_categories_by }, true)
  else
    ({ max_num_categories_for_drift := max_num_categories_for_drift,
       max_num_categories_for_display := max_num_categories_for_display,
       show_categories_by := show_categories_by }, false)

/-- A buffer position whose name no property of the loop carries is left
unchanged by the per-property append loop of `update`. -/
theorem foldl_buf_ne (P : Type) (preds : P) (n : String) :
    ∀ (props : List (PredictionProperty P)) (buf : String → List PValue),
      (∀ q ∈ props, q.name ≠ n) →
      (props.foldl (fun b p => updatePropertyBuf P b p preds) buf) n = buf n := by
  intro props
  induction props with
  | nil => intro buf _; rfl
  | cons q ps ih =>
    intro buf h
    have hq : q.name ≠ n := h q (List.mem_cons_self q ps)
    simp only [List.foldl_cons]
    rw [ih _ (fun p hp => h p (List.mem_cons_of_mem q hp))]
    simp [updatePropertyBuf, Ne.symm hq]

/-- Under distinct property names, one `update` loop pass appends exactly
the flattened extraction of the matching property to its buffer. -/
theorem foldl_buf_eq (P : Type) (preds : P) :
    ∀ (props : List (PredictionProperty P)) (buf : String → List PValue)
      (p : PredictionProperty P),
      (props.map (fun q => q.name)).Nodup → p ∈ props →
      (props.foldl (fun b q => updatePropertyBuf P b q preds) buf) p.name
        = buf p.name ++ properties_flatten (p.method preds) := by
  intro props
  induction props with
  | nil => intro _ p _ hp; cases hp
  | cons q ps ih =>
    intro buf p hnd hp
    have hparts : (∀ x ∈ ps, ¬x.name = q.name)
        ∧ (List.map (fun q => q.name) ps).Nodup := by simpa using hnd
    simp only [List.foldl_cons]
    rcases List.mem_cons.mp hp with hpq | hps
    · subst hpq
      rw [foldl_buf_ne P preds p.name ps _ (fun r hr => hparts.1 r hr)]
      simp [updatePropertyBuf]
    · have hq_ne : ¬(p.name = q.name) := hparts.1 p hps
      rw [ih _ p hparts.2 hps]
      simp [updatePropertyBuf, hq_ne]

/-- Unfolding an accumulation run one batch at a time. -/
theorem runUpdates_cons (P : Type) (props : List (PredictionProperty P))
    (s : DriftState) (kb : DatasetKind × VisionBatch P)
    (bs : List (DatasetKind × VisionBatch P)) :
    TrainTestPredictionDrift.runUpdates P props s (kb :: bs)
      = TrainTestPredictionDrift.runUpdates P props
          (TrainTestPredictionDrift.update P props s kb.1 kb.2) bs := rfl

/-- Characterization of both buffers of one property after an arbitrary
update sequence: each buffer holds its initial content followed by the
concatenated flattened extractions from the batches of its population, in
arrival order. -/
theorem runUpdates_buf (P : Type) (props : List (PredictionProperty P))
    (p : PredictionProperty P) (hnd : (props.map (fun q => q.name)).Nodup)
    (hp : p ∈ props) :
    ∀ (batches : List (DatasetKind × VisionBatch P)) (s : DriftState),
      (TrainTestPredictionDrift.runUpdates P props s batches).train p.name
        = s.train p.name
          ++ ((batches.filter (fun kb => decide (kb.1 = DatasetKind.TRAIN))).map
              (fun kb => properties_flatten (p.method kb.2.predictions))).flatten
      ∧ (TrainTestPredictionDrift.runUpdates P props s batches).test p.name
        = s.test p.name
          ++ ((batches.filter (fun kb => decide (kb.1 = DatasetKind.TEST))).map
              (fun kb => properties_flatten (p.method kb.2.predictions))).flatten := by
  intro batches
  induction batches with
  | nil =>
    intro s
    constructor <;> simp [TrainTestPredictionDrift.runUpdates]
  | cons kb bs ih =>
    intro s
    obtain ⟨k, b⟩ := kb
    rw [runUpdates_cons]
    cases k with
    | TRAIN =>
      have hupd : (TrainTestPredictionDrift.update P props s DatasetKind.TRAIN b).train p.name
          = s.train p.name ++ properties_flatten (p.method b.predictions) :=
        foldl_buf_eq P b.predictions props s.train p hnd hp
      have hte : (TrainTestPredictionDrift.update P props s DatasetKind.TRAIN b).test = s.test := rfl
      constructor
      · rw [(ih _).1, hupd]
        simp [List.filter_cons, List.append_assoc]
      · rw [(ih _).2, hte]
        simp [List.filter_cons]
    | TEST =>
      have hupd : (TrainTestPredictionDrift.update P props s DatasetKind.TEST b).test p.name
          = s.test p.name ++ properties_flatten (p.method b.predictions) :=
        foldl_buf_eq P b.predictions props s.test p hnd hp
      have htr : (TrainTestPredictionDrift.update P props s DatasetKind.TEST b).train = s.train := rfl
      constructor
      · rw [(ih _).1, htr]
        simp [List.filter_cons]
      · rw [(ih _).2, hupd]
        simp [List.filter_cons, List.append_assoc]

/-- `mkDriftEntry` only reads the state at the property's own name. -/
theorem mkDriftEntry_congr (P D : Type)
    (sc : ColumnType → List PValue → List PValue → ℚ)
    (pl : ColumnType → List PValue → List PValue → D)
    (lookupTr lookupTe : PValue → PValue) (s s2 : DriftState)
    (p : PredictionProperty P)
    (htr : s.train p.name = s2.train p.name) (hte : s.test p.name = s2.test p.name) :
    mkDriftEntry P D sc pl lookupTr lookupTe s p
      = mkDriftEntry P D sc pl lookupTr lookupTe s2 p := by
  simp [mkDriftEntry, htr, hte]

/-- Under distinct property names, the compute loop's entry for a declared
property is exactly the one built from the incoming state: translated
columns for a class-id property, raw columns otherwise, with score, method
and display computed from those columns. -/
theorem computeLoop_find (P D : Type)
    (sc : ColumnType → List PValue → List PValue → ℚ)
    (pl : ColumnType → List PValue → List PValue → D)
    (lookupTr lookupTe : PValue → PValue) :
    ∀ (props : List (PredictionProperty P)),
      (props.map (fun q => q.name)).Nodup →
      ∀ p ∈ props, ∀ (s : DriftState),
      findEntry D (computeLoop P D sc pl lookupTr lookupTe props s).1 p.name
        = some (mkDriftEntry P D sc pl lookupTr lookupTe s p) := by
  intro props
  induction props with
  | nil => intro _ p hp; cases hp
  | cons q qs ih =>
    intro hnd p hp s
    have hparts : (∀ x ∈ qs, ¬x.name = q.name)
        ∧ (List.map (fun r => r.name) qs).Nodup := by simpa using hnd
    rcases List.mem_cons.mp hp with hpq | hps
    · subst hpq
      by_cases hct : p.output_type = OutputType.class_id <;>
        simp [computeLoop, findEntry, List.find?_cons, mkDriftEntry,
          calc_drift_and_plot, hct]
    · have hq_ne : ¬(q.name = p.name) := fun h => (hparts.1 p hps) h.symm
      have step : findEntry D (computeLoop P D sc pl lookupTr lookupTe (q :: qs) s).1 p.name
          = findEntry D (computeLoop P D sc pl lookupTr lookupTe qs
              (if q.output_type = OutputType.class_id then
                { train := fun n => if n = q.name then (s.train n).map lookupTr else s.train n,
                  test := fun n => if n = q.name then (s.test n).map lookupTe else s.test n }
               else s)).1 p.name := by
        simp [computeLoop, findEntry, List.find?_cons, hq_ne]
      rw [step, ih hparts.2 p hps]
      by_cases hct : q.output_type = OutputType.class_id
      · have hp_ne : ¬(p.name = q.name) := hparts.1 p hps
        exact congrArg some
          (mkDriftEntry_congr P D sc pl lookupTr lookupTe _ s p
            (by simp [hct, hp_ne]) (by simp [hct, hp_ne]))
      · simp [hct]

/-- The compute loop emits one entry per declared property, in declaration
order, named after it. -/
theorem computeLoop_names (P D : Type)
    (sc : ColumnType → List PValue → List PValue → ℚ)
    (pl : ColumnType → List PValue → List PValue → D)
    (lookupTr lookupTe : PValue → PValue) :
    ∀ (props : List (PredictionProperty P)) (s : DriftState),
      (computeLoop P D sc pl lookupTr lookupTe props s).1.map (fun e => e.name)
        = props.map (fun p => p.name) := by
  intro props
  induction props with
  | nil => intro s; rfl
  | cons q qs ih =>
    intro s
    simp [computeLoop, ih]

/-- The ranked order is sorted descending by drift score. -/
theorem columnsOrder_sorted (D : Type) (es : List (DriftEntry D)) :
    (columnsOrder D es).Sorted (driftGE D) := by
  haveI : IsTotal (DriftEntry D) (driftGE D) := ⟨fun a b => le_total b.score a.score⟩
  haveI : IsTrans (DriftEntry D) (driftGE D) := ⟨fun _ _ _ h1 h2 => le_trans h2 h1⟩
  exact List.sorted_insertionSort (driftGE D) es

/-- The ranked order is a permutation of the declaration-ordered entries. -/
theorem columnsOrder_perm (D : Type) (es : List (DriftEntry D)) :
    List.Perm (columnsOrder D es) es :=
  List.perm_insertionSort (driftGE D) es

/-- Stability of the ranking: a pair of entries with equal scores that
stands in declaration order stays in that order after ranking. -/
theorem columnsOrder_stable (D : Type) (es : List (DriftEntry D))
    (a b : DriftEntry D) (hab : a.score = b.score) (h : List.Sublist [a, b] es) :
    List.Sublist [a, b] (columnsOrder D es) :=
  List.pair_sublist_insertionSort (le_of_eq hab.symm) h

/-- C1: after initialize and any sequence of update calls, the buffer of
each declared property for TRAIN equals the concatenation, in arrival
order, of the flattened per-sample values extracted by that property's
method from the TRAIN batches only, and likewise for TEST. -/
theorem claim_C1_accumulator_concatenation (P : Type)
    (props : List (PredictionProperty P)) (p : PredictionProperty P)
    (hnd : (props.map (fun q => q.name)).Nodup) (hp : p ∈ props)
    (batches : List (DatasetKind × VisionBatch P)) :
    (TrainTestPredictionDrift.runUpdates P props DriftState.initial batches).train p.name
      = ((batches.filter (fun kb => decide (kb.1 = DatasetKind.TRAIN))).map
          (fun kb => properties_flatten (p.method kb.2.predictions))).flatten
    ∧ (TrainTestPredictionDrift.runUpdates P props DriftState.initial batches).test p.name
      = ((batches.filter (fun kb => decide (kb.1 = DatasetKind.TEST))).map
          (fun kb => properties_flatten (p.method kb.2.predictions))).flatten := by
  have hbuf := runUpdates_buf P props p hnd hp batches DriftState.initial
  exact ⟨by simpa [DriftState.initial] using hbuf.1,
         by simpa [DriftState.initial] using hbuf.2⟩

/-- Witness for C1: one declared property, two identical TRAIN updates;
the train buffer is batch1's extracted values twice, the test buffer is
empty. -/
theorem claim_C1_accumulator_concatenation_witness :
    (TrainTestPredictionDrift.runUpdates (List (List PValue))
        [{ name := "p", method := fun x => x, output_type := OutputType.continuous }]
        DriftState.initial
        [(DatasetKind.TRAIN, { predictions := [[PValue.num 1], [PValue.num 2]] }),
         (DatasetKind.TRAIN, { predictions := [[PValue.num 1], [PValue.num 2]] })]).train "p"
      = [PValue.num 1, PValue.num 2, PValue.num 1, PValue.num 2]
    ∧ (TrainTestPredictionDrift.runUpdates (List (List PValue))
        [{ name := "p", method := fun x => x, output_type := OutputType.continuous }]
        DriftState.initial
        [(DatasetKind.TRAIN, { predictions := [[PValue.num 1], [PValue.num 2]] }),
         (DatasetKind.TRAIN, { predictions := [[PValue.num 1], [PValue.num 2]] })]).test "p"
      = [] := by
  have h := claim_C1_accumulator_concatenation (List (List PValue))
    [{ name := "p", method := fun x => x, output_type := OutputType.continuous }]
    { name := "p", method := fun x => x, output_type := OutputType.continuous }
    (by simp) (by simp)
    [(DatasetKind.TRAIN, { predictions := [[PValue.num 1], [PValue.num 2]] }),
     (DatasetKind.TRAIN, { predictions := [[PValue.num 1], [PValue.num 2]] })]
  exact ⟨h.1.trans (by rfl), h.2.trans (by rfl)⟩

/-- C4: for a class_id property the train and test buffers hold raw
numeric class ids after every update sequence, and the id→name lookups are
applied only at compute time, to the whole accumulated buffers, before the
drift calculator scores them. -/
theorem claim_C4_class_id_raw_then_translated (P D : Type)
    (sc : ColumnType → List PValue → List PValue → ℚ)
    (pl : ColumnType → List PValue → List PValue → D)
    (lookupTr lookupTe : PValue → PValue)
    (props : List (PredictionProperty P))
    (batches : List (DatasetKind × VisionBatch P))
    (p : PredictionProperty P)
    (hnd : (props.map (fun q => q.name)).Nodup) (hp : p ∈ props)
    (hct : p.output_type = OutputType.class_id) :
    (TrainTestPredictionDrift.runUpdates P props DriftState.initial batches).train p.name
      = ((batches.filter (fun kb => decide (kb.1 = DatasetKind.TRAIN))).map
          (fun kb => properties_flatten (p.method kb.2.predictions))).flatten
    ∧ (TrainTestPredictionDrift.runUpdates P props DriftState.initial batches).test p.name
      = ((batches.filter (fun kb => decide (kb.1 = DatasetKind.TEST))).map
          (fun kb => properties_flatten (p.method kb.2.predictions))).flatten
    ∧ findEntry D (TrainTestPredictionDrift.compute P D sc pl lookupTr lookupTe props
          (TrainTestPredictionDrift.runUpdates P props DriftState.initial batches)).values p.name
      = some
        { name := p.name,
          train_column :=
            ((TrainTestPredictionDrift.runUpdates P props DriftState.initial batches).train p.name).map lookupTr,
          test_column :=
            ((TrainTestPredictionDrift.runUpdates P props DriftState.initial batches).test p.name).map lookupTe,
          score := sc ColumnType.categorical
            (((TrainTestPredictionDrift.runUpdates P props DriftState.initial batches).train p.name).map lookupTr)
            (((TrainTestPredictionDrift.runUpdates P props DriftState.initial batches).test p.name).map lookupTe),
          method := DriftMethod.PSI,
          display := pl ColumnType.categorical
            (((TrainTestPredictionDrift.runUpdates P props DriftState.initial batches).train p.name).map lookupTr)
            (((TrainTestPredictionDrift.runUpdates P props DriftState.initial batches).test p.name).map lookupTe) } := by
  have hbuf := runUpdates_buf P props p hnd hp batches DriftState.initial
  refine ⟨by simpa [DriftState.initial] using hbuf.1,
          by simpa [DriftState.initial] using hbuf.2, ?_⟩
  have hfind := computeLoop_find P D sc pl lookupTr lookupTe props hnd p hp
    (TrainTestPredictionDrift.runUpdates P props DriftState.initial batches)
  show findEntry D (computeLoop P D sc pl lookupTr lookupTe props
      (TrainTestPredictionDrift.runUpdates P props DriftState.initial batches)).1 p.name = _
  rw [hfind]
  simp [mkDriftEntry, hct, get_column_type]

/-- Witness for C4: one class_id property, one TRAIN and one TEST batch;
buffers hold the raw ids and the compute entry holds their translations. -/
theorem claim_C4_class_id_raw_then_translated_witness :
    (TrainTestPredictionDrift.runUpdates (List (List PValue))
        [{ name := "cls", method := fun x => x, output_type := OutputType.class_id }]
        DriftState.initial
        [(DatasetKind.TRAIN, { predictions := [[PValue.num 3]] }),
         (DatasetKind.TEST, { predictions := [[PValue.num 4]] })]).train "cls"
      = [PValue.num 3]
    ∧ (TrainTestPredictionDrift.runUpdates (List (List PValue))
        [{ name := "cls", method := fun x => x, output_type := OutputType.class_id }]
        DriftState.initial
        [(DatasetKind.TRAIN, { predictions := [[PValue.num 3]] }),
         (DatasetKind.TEST, { predictions := [[PValue.num 4]] })]).test "cls"
      = [PValue.num 4]
    ∧ findEntry String (TrainTestPredictionDrift.compute (List (List PValue)) String
        (fun _ _ _ => 0) (fun _ _ _ => "plot")
        (fun _ => PValue.str "trname") (fun _ => PValue.str "tename")
        [{ name := "cls", method := fun x => x, output_type := OutputType.class_id }]
        (TrainTestPredictionDrift.runUpdates (List (List PValue))
          [{ name := "cls", method := fun x => x, output_type := OutputType.class_id }]
          DriftState.initial
          [(DatasetKind.TRAIN, { predictions := [[PValue.num 3]] }),
           (DatasetKind.TEST, { predictions := [[PValue.num 4]] })])).values "cls"
      = some
        { name := "cls",
          train_column := [PValue.str "trname"],
          test_column := [PValue.str "tename"],
          score := 0,
          method := DriftMethod.PSI,
          display := "plot" } := by
  have h := claim_C4_class_id_raw_then_translated (List (List PValue)) String
    (fun _ _ _ => 0) (fun _ _ _ => "plot")
    (fun _ => PValue.str "trname") (fun _ => PValue.str "tename")
    [{ name := "cls", method := fun x => x, output_type := OutputType.class_id }]
    [(DatasetKind.TRAIN, { predictions := [[PValue.num 3]] }),
     (DatasetKind.TEST, { predictions := [[PValue.num 4]] })]
    { name := "cls", method := fun x => x, output_type := OutputType.class_id }
    (by simp) (by simp) rfl
  exact ⟨h.1.trans (by rfl), h.2.1.trans (by rfl), h.2.2.trans (by rfl)⟩

/-- C7: the drift method recorded for a property is a function of its
declared output type alone — class_id and discrete map to PSI, continuous
to Earth Movers Distance — whatever data the buffers hold. -/
theorem claim_C7_method_from_output_type (P D : Type)
    (sc : ColumnType → List PValue → List PValue → ℚ)
    (pl : ColumnType → List PValue → List PValue → D)
    (lookupTr lookupTe : PValue → PValue)
    (props : List (PredictionProperty P)) (s : DriftState)
    (p : PredictionProperty P)
    (hnd : (props.map (fun q => q.name)).Nodup) (hp : p ∈ props) :
    (findEntry D (TrainTestPredictionDrift.compute P D sc pl lookupTr lookupTe props s).values
        p.name).map (fun e => e.method)
      = some (match p.output_type with
              | OutputType.continuous => DriftMethod.EarthMoversDistance
              | OutputType.discrete => DriftMethod.PSI
              | OutputType.class_id => DriftMethod.PSI) := by
  have hfind := computeLoop_find P D sc pl lookupTr lookupTe props hnd p hp s
  show (findEntry D (computeLoop P D sc pl lookupTr lookupTe props s).1 p.name).map
      (fun e => e.method) = _
  rw [hfind]
  cases hq : p.output_type <;> simp [mkDriftEntry, hq, get_column_type]

/-- Witness for C7: one discrete property over arbitrary accumulated data
gets method PSI. -/
theorem claim_C7_method_from_output_type_witness :
    (findEntry String (TrainTestPredictionDrift.compute (List (List PValue)) String
        (fun _ _ _ => 0) (fun _ _ _ => "plot") (fun v => v) (fun v => v)
        [{ name := "cnt", method := fun x => x, output_type := OutputType.discrete }]
        DriftState.initial).values "cnt").map (fun e => e.method)
      = some DriftMethod.PSI := by
  have h := claim_C7_method_from_output_type (List (List PValue)) String
    (fun _ _ _ => 0) (fun _ _ _ => "plot") (fun v => v) (fun v => v)
    [{ name := "cnt", method := fun x => x, output_type := OutputType.discrete }]
    DriftState.initial
    { name := "cnt", method := fun x => x, output_type := OutputType.discrete }
    (by simp) (by simp)
  exact h.trans (by rfl)

/-- C5: the rendering artifacts of compute are the entries ranked
descending by drift score, the entries carry the declared property names in
declaration order, the ranking permutes the declaration order, and two
entries with equal scores keep their declaration order. -/
theorem claim_C5_ranking_stable_descending (P D : Type)
    (sc : ColumnType → List PValue → List PValue → ℚ)
    (pl : ColumnType → List PValue → List PValue → D)
    (lookupTr lookupTe : PValue → PValue)
    (props : List (PredictionProperty P)) (s : DriftState) :
    (TrainTestPredictionDrift.compute P D sc pl lookupTr lookupTe props s).displays
      = ((TrainTestPredictionDrift.compute P D sc pl lookupTr lookupTe props s).columns_order).map
          (fun e => e.display)
    ∧ (TrainTestPredictionDrift.compute P D sc pl lookupTr lookupTe props s).values.map
          (fun e => e.name)
        = props.map (fun p => p.name)
    ∧ List.Pairwise (fun a b : DriftEntry D => b.score ≤ a.score)
        ((TrainTestPredictionDrift.compute P D sc pl lookupTr lookupTe props s).columns_order)
    ∧ List.Perm
        ((TrainTestPredictionDrift.compute P D sc pl lookupTr lookupTe props s).columns_order)
        ((TrainTestPredictionDrift.compute P D sc pl lookupTr lookupTe props s).values)
    ∧ ∀ a b : DriftEntry D, a.score = b.score →
        List.Sublist [a, b]
          ((TrainTestPredictionDrift.compute P D sc pl lookupTr lookupTe props s).values) →
        List.Sublist [a, b]
          ((TrainTestPredictionDrift.compute P D sc pl lookupTr lookupTe props s).columns_order) := by
  refine ⟨rfl, computeLoop_names P D sc pl lookupTr lookupTe props s, ?_, ?_, ?_⟩
  · exact columnsOrder_sorted D _
  · exact columnsOrder_perm D _
  · intro a b hab hsub
    exact columnsOrder_stable D _ a b hab hsub

/-- Witness for C5: two properties with equal drift scores stay in
declaration order in the ranked output. -/
theorem claim_C5_ranking_stable_descending_witness :
    List.Sublist
      [({ name := "a", train_column := [], test_column := [], score := 0,
          method := DriftMethod.PSI, display := "d" } : DriftEntry String),
       { name := "b", train_column := [], test_column := [], score := 0,
         method := DriftMethod.PSI, display := "d" }]
      ((TrainTestPredictionDrift.compute (List (List PValue)) String
        (fun _ _ _ => 0) (fun _ _ _ => "d") (fun v => v) (fun v => v)
        [{ name := "a", method := fun x => x, output_type := OutputType.discrete },
         { name := "b", method := fun x => x, output_type := OutputType.discrete }]
        DriftState.initial).columns_order) :=
  (claim_C5_ranking_stable_descending (List (List PValue)) String
      (fun _ _ _ => 0) (fun _ _ _ => "d") (fun v => v) (fun v => v)
      [{ name := "a", method := fun x => x, output_type := OutputType.discrete },
       { name := "b", method := fun x => x, output_type := OutputType.discrete }]
      DriftState.initial).2.2.2.2
    { name := "a", train_column := [], test_column := [], score := 0,
      method := DriftMethod.PSI, display := "d" }
    { name := "b", train_column := [], test_column := [], score := 0,
      method := DriftMethod.PSI, display := "d" }
    rfl (by decide)

/-- C2: evidence of the divergence — the constructor accepts a maximal
segment count of 0 (the guard only rejects negatives) even though its own
error message, raised for -1, demands a positive integer. -/
theorem claim_C2_zero_segments_accepted :
    SegmentPerformance.init (some "age") (some "income") 0
      = Except.ok { feature_1 := some "age", feature_2 := some "income", max_segments := 0 }
    ∧ SegmentPerformance.init (some "age") (some "income") (-1)
      = Except.error (DeepchecksError.valueError "num_segments must be positive integer") :=
  ⟨rfl, rfl⟩

/-- C3: when the auxiliary regression step signals a DeepchecksProcessError,
compute returns a non-fatal CheckFailure value carrying the check name and
the failure reason, never propagating the exception. -/
theorem claim_C3_process_error_caught (F V D : Type) (e : DeepchecksProcessError)
    (displayFn : F → List D × V) (headnote : D) :
    ModelErrorAnalysis.compute F V D (Except.error e) displayFn headnote
      = CheckOutcome.failure "Model Error Analysis" e.message :=
  rfl

/-- C6 counterexample: two identical falsy partition features (two empty
strings) are accepted by the constructor, against the claim that any two
identical features raise an InvalidParameter error. -/
theorem claim_C6_identical_features_counterexample :
    SegmentPerformance.init (some "") (some "") 10
      = Except.ok { feature_1 := some "", feature_2 := some "", max_segments := 10 } :=
  rfl

/-- C6 amended: identical features raise a DeepchecksValueError at
construction time, provided the first feature is truthy (neither None nor
empty); distinct or fully omitted features (with a non-negative segment
count) are accepted without raising. -/
theorem claim_C6_identical_truthy_features_raise (f1 f2 : Option String) (k : Int) :
    (pyTruthy f1 = true → f1 = f2 →
      SegmentPerformance.init f1 f2 k
        = Except.error (DeepchecksError.valueError "feature_1 must be different than feature_2"))
    ∧ (¬(pyTruthy f1 = true ∧ f1 = f2) → 0 ≤ k →
      SegmentPerformance.init f1 f2 k
        = Except.ok { feature_1 := f1, feature_2 := f2, max_segments := k }) := by
  constructor
  · intro ht heq
    subst heq
    simp [SegmentPerformance.init, ht]
  · intro hn hk
    have hguard : (pyTruthy f1 && (f1 == f2)) = false := by
      by_cases ht : pyTruthy f1 = true
      · have hne : ¬(f1 = f2) := fun he => hn ⟨ht, he⟩
        simp [ht, hne]
      · simp [Bool.eq_false_iff.mpr ht]
    simp [SegmentPerformance.init, hguard, not_lt.mpr hk]

/-- Witness for the amended C6 at concrete feature names. -/
theorem claim_C6_identical_truthy_features_raise_witness :
    SegmentPerformance.init (some "x") (some "x") 3
      = Except.error (DeepchecksError.valueError "feature_1 must be different than feature_2")
    ∧ SegmentPerformance.init (some "x") (some "y") 10
      = Except.ok { feature_1 := some "x", feature_2 := some "y", max_segments := 10 } :=
  ⟨(claim_C6_identical_truthy_features_raise (some "x") (some "x") 3).1 (by decide) rfl,
   (claim_C6_identical_truthy_features_raise (some "x") (some "y") 10).2 (by decide) (by decide)⟩

/-- C8 counterexample: a SegmentPerformance run with both features omitted
mutates the instance's feature configuration, so a second run on a context
with different features does not behave as a freshly constructed instance
would. -/
theorem claim_C8_run_boundary_counterexample :
    SegmentPerformance.selectFeatures
        { feature_1 := none, feature_2 := none, max_segments := 10 }
        { features := ["a", "b"], features_importance := none }
      = Except.ok { feature_1 := some "a", feature_2 := some "b", max_segments := 10 }
    ∧ ({ feature_1 := some "a", feature_2 := some "b", max_segments := 10 } : SegmentPerformanceConfig)
        ≠ { feature_1 := none, feature_2 := none, max_segments := 10 }
    ∧ SegmentPerformance.selectFeatures
        { feature_1 := some "a", feature_2 := some "b", max_segments := 10 }
        { features := ["c", "d"], features_importance := none }
      = Except.ok { feature_1 := some "a", feature_2 := some "b", max_segments := 10 }
    ∧ SegmentPerformance.selectFeatures
        { feature_1 := none, feature_2 := none, max_segments := 10 }
        { features := ["c", "d"], features_importance := none }
      = Except.ok { feature_1 := some "c", feature_2 := some "d", max_segments := 10 }
    ∧ ({ feature_1 := some "a", feature_2 := some "b", max_segments := 10 } : SegmentPerformanceConfig)
        ≠ { feature_1 := some "c", feature_2 := some "d", max_segments := 10 } :=
  ⟨rfl, by decide, rfl, rfl, by decide⟩

/-- C8 amended: the ModelErrorAnalysis accumulator is created fresh at
initialize_run — the accumulation phase gives the same result from any two
instance states with the same configuration — and the run never mutates a
configuration field; SegmentPerformance, by contrast, mutates its
feature fields (see the counterexample). -/
theorem claim_C8_fresh_accumulator (I P L : Type) (sf : P → L → List ℚ)
    (s₁ s₂ : MEAState I P L) (hcfg : s₁.config = s₂.config)
    (batches : List (DatasetKind × MEABatch I P L)) :
    ModelErrorAnalysis.runAccumulate I P L sf s₁ batches
      = ModelErrorAnalysis.runAccumulate I P L sf s₂ batches
    ∧ (ModelErrorAnalysis.runAccumulate I P L sf s₁ batches).config = s₁.config := by
  have hinit : ModelErrorAnalysis.initRun I P L s₁ = ModelErrorAnalysis.initRun I P L s₂ := by
    cases s₁
    cases s₂
    simp_all [ModelErrorAnalysis.initRun]
  have hcfgfold : ∀ (bs : List (DatasetKind × MEABatch I P L)) (s : MEAState I P L),
      (bs.foldl (fun st kb => ModelErrorAnalysis.update I P L sf st kb.1 kb.2) s).config
        = s.config := by
    intro bs
    induction bs with
    | nil => intro s; rfl
    | cons kb rest ih =>
      intro s
      rw [List.foldl_cons, ih]
      obtain ⟨k, b⟩ := kb
      cases k <;> rfl
  constructor
  · unfold ModelErrorAnalysis.runAccumulate
    rw [hinit]
  · unfold ModelErrorAnalysis.runAccumulate
    rw [hcfgfold]
    rfl

/-- Witness for the amended C8: two instance states sharing a
configuration but with different leftover buffers accumulate identically,
and the configuration survives the run. -/
theorem claim_C8_fresh_accumulator_witness :
    ModelErrorAnalysis.runAccumulate Unit Unit Unit (fun _ _ => [])
        { config := { image_properties := [], max_properties_to_show := 20,
                      min_property_contribution := 15/100, min_error_model_score := 1/2,
                      min_segment_size := 5/100, n_display_samples := 5000, random_state := 42 },
          train_properties := fun _ => [3], test_properties := fun _ => [],
          train_scores := [7], test_scores := [] }
        [(DatasetKind.TRAIN, { images := (), predictions := (), labels := () })]
      = ModelErrorAnalysis.runAccumulate Unit Unit Unit (fun _ _ => [])
        { config := { image_properties := [], max_properties_to_show := 20,
                      min_property_contribution := 15/100, min_error_model_score := 1/2,
                      min_segment_size := 5/100, n_display_samples := 5000, random_state := 42 },
          train_properties := fun _ => [], test_properties := fun _ => [],
          train_scores := [], test_scores := [] }
        [(DatasetKind.TRAIN, { images := (), predictions := (), labels := () })]
    ∧ (ModelErrorAnalysis.runAccumulate Unit Unit Unit (fun _ _ => [])
        { config := { image_properties := [], max_properties_to_show := 20,
                      min_property_contribution := 15/100, min_error_model_score := 1/2,
                      min_segment_size := 5/100, n_display_samples := 5000, random_state := 42 },
          train_properties := fun _ => [3], test_properties := fun _ => [],
          train_scores := [7], test_scores := [] }
        [(DatasetKind.TRAIN, { images := (), predictions := (), labels := () })]).config
      = { image_properties := [], max_properties_to_show := 20,
          min_property_contribution := 15/100, min_error_model_score := 1/2,
          min_segment_size := 5/100, n_display_samples := 5000, random_state := 42 } :=
  claim_C8_fresh_accumulator Unit Unit Unit (fun _ _ => [])
    { config := { image_properties := [], max_properties_to_show := 20,
                  min_property_contribution := 15/100, min_error_model_score := 1/2,
                  min_segment_size := 5/100, n_display_samples := 5000, random_state := 42 },
      train_properties := fun _ => [3], test_properties := fun _ => [],
      train_scores := [7], test_scores := [] }
    { config := { image_properties := [], max_properties_to_show := 20,
                  min_property_contribution := 15/100, min_error_model_score := 1/2,
                  min_segment_size := 5/100, n_display_samples := 5000, random_state := 42 },
      train_properties := fun _ => [], test_properties := fun _ => [],
      train_scores := [], test_scores := [] }
    rfl
    [(DatasetKind.TRAIN, { images := (), predictions := (), labels := () })]

/-- C9: the mixed-data-types analysis of a column returns either the empty
result or a result with exactly the keys strings and numbers, whose ratios
are strictly between 0 and 1 and sum to 1, computed as nums over total and
total minus nums over total; a non-empty result occurs only for a string
column holding both parseable and non-parseable entries. -/
theorem claim_C9_mixed_ratios (col : MixedColumn) :
    (MixedDataTypes.get_data_mix col = []
      ∨ ∃ s n : ℚ,
          MixedDataTypes.get_data_mix col = [("strings", s), ("numbers", n)]
          ∧ 0 < s ∧ s < 1 ∧ 0 < n ∧ n < 1 ∧ s + n = 1
          ∧ n = (MixedDataTypes.numsOf col : ℚ) / (MixedDataTypes.totalOf col : ℚ)
          ∧ s = ((MixedDataTypes.totalOf col : ℚ) - (MixedDataTypes.numsOf col : ℚ))
              / (MixedDataTypes.totalOf col : ℚ))
    ∧ (MixedDataTypes.get_data_mix col ≠ [] →
        col.isStringColumn = true
        ∧ 0 < MixedDataTypes.numsOf col
        ∧ MixedDataTypes.numsOf col < MixedDataTypes.totalOf col) := by
  by_cases hs : col.isStringColumn = true
  · by_cases hcond : MixedDataTypes.numsOf col = MixedDataTypes.totalOf col
        ∨ MixedDataTypes.numsOf col = 0
    · have hempty : MixedDataTypes.get_data_mix col = [] := by
        simp [MixedDataTypes.get_data_mix, MixedDataTypes.check_mixed_percentage, hs, hcond]
      exact ⟨Or.inl hempty, fun hne => absurd hempty hne⟩
    · push_neg at hcond
      obtain ⟨hne_total, hne_zero⟩ := hcond
      have hle : MixedDataTypes.numsOf col ≤ MixedDataTypes.totalOf col :=
        List.length_filter_le _ _
      have hlt : MixedDataTypes.numsOf col < MixedDataTypes.totalOf col :=
        lt_of_le_of_ne hle hne_total
      have hpos : 0 < MixedDataTypes.numsOf col := Nat.pos_of_ne_zero hne_zero
      have htot : 0 < MixedDataTypes.totalOf col := lt_of_le_of_lt (Nat.zero_le _) hlt
      have hq1 : (0 : ℚ) < (MixedDataTypes.numsOf col : ℚ) := by exact_mod_cast hpos
      have hq2 : (MixedDataTypes.numsOf col : ℚ) < (MixedDataTypes.totalOf col : ℚ) := by
        exact_mod_cast hlt
      have hq3 : (0 : ℚ) < (MixedDataTypes.totalOf col : ℚ) := by exact_mod_cast htot
      have habs : |(MixedDataTypes.numsOf col : ℚ) - (MixedDataTypes.totalOf col : ℚ)|
          = (MixedDataTypes.totalOf col : ℚ) - (MixedDataTypes.numsOf col : ℚ) := by
        rw [abs_sub_comm]
        exact abs_of_nonneg (sub_nonneg.mpr (le_of_lt hq2))
      have hmix : MixedDataTypes.get_data_mix col
          = [("strings",
              ((MixedDataTypes.totalOf col : ℚ) - (MixedDataTypes.numsOf col : ℚ))
                / (MixedDataTypes.totalOf col : ℚ)),
             ("numbers",
              (MixedDataTypes.numsOf col : ℚ) / (MixedDataTypes.totalOf col : ℚ))] := by
        simp [MixedDataTypes.get_data_mix, MixedDataTypes.check_mixed_percentage, hs,
          hne_total, hne_zero, habs]
      refine ⟨Or.inr ⟨_, _, hmix, ?_, ?_, ?_, ?_, ?_, rfl, rfl⟩, fun _ => ⟨hs, hpos, hlt⟩⟩
      · exact div_pos (sub_pos.mpr hq2) hq3
      · rw [div_lt_one hq3]
        linarith
      · exact div_pos hq1 hq3
      · rw [div_lt_one hq3]
        exact hq2
      · rw [div_add_div_same]
        field_simp
  · have hempty : MixedDataTypes.get_data_mix col = [] := by
      simp [MixedDataTypes.get_data_mix, hs]
    exact ⟨Or.inl hempty, fun hne => absurd hempty hne⟩

/-- Witness for C9 at a concrete mixed string column: one parseable entry
among three. -/
theorem claim_C9_mixed_ratios_witness :
    ({ isStringColumn := true, entries := [true, false, false] } : MixedColumn).isStringColumn = true
    ∧ 0 < MixedDataTypes.numsOf { isStringColumn := true, entries := [true, false, false] }
    ∧ MixedDataTypes.numsOf { isStringColumn := true, entries := [true, false, false] }
        < MixedDataTypes.totalOf { isStringColumn := true, entries := [true, false, false] } :=
  (claim_C9_mixed_ratios { isStringColumn := true, entries := [true, false, false] }).2
    (by decide)

/-- C10: when both new category parameters are non-zero (as their defaults
are), a supplied deprecated max_num_categories never replaces either of
them — the stored configuration is identical to one built without it, and
only the deprecation warning flag differs. -/
theorem claim_C10_deprecated_param_ignored (d disp m : Int) (sb : String)
    (hd : d ≠ 0) (hdisp : disp ≠ 0) :
    (TrainTestPredictionDrift.initConfig (some d) (some disp) sb (some m)).1
      = (TrainTestPredictionDrift.initConfig (some d) (some disp) sb none).1
    ∧ (TrainTestPredictionDrift.initConfig (some d) (some disp) sb (some m)).2 = true
    ∧ (TrainTestPredictionDrift.initConfig (some d) (some disp) sb none).2 = false := by
  refine ⟨?_, ?_, ?_⟩ <;>
    simp [TrainTestPredictionDrift.initConfig, pyOrInt, pyIntTruthy, hd, hdisp]

/-- Witness for C10 at the actual defaults (10, 10) and a deprecated value
of 5. -/
theorem claim_C10_deprecated_param_ignored_witness :
    (TrainTestPredictionDrift.initConfig (some 10) (some 10) "train_largest" (some 5)).1
      = (TrainTestPredictionDrift.initConfig (some 10) (some 10) "train_largest" none).1
    ∧ (TrainTestPredictionDrift.initConfig (some 10) (some 10) "train_largest" (some 5)).2 = true
    ∧ (TrainTestPredictionDrift.initConfig (some 10) (some 10) "train_largest" none).2 = false :=
  claim_C10_deprecated_param_ignored 10 10 5 "train_largest" (by decide) (by decide)

end Deepchecks
